import Mathlib

/-!
Verification of the node-crawler request scheduler core against its
natural-language specification.  The definitions below are a shallow
embedding of the TypeScript sources (`src/crawler.ts`, `src/options.ts`):
pure helpers become Lean functions, the callback-driven execute/retry loop
becomes explicit state passing over a trace structure, and JavaScript's
`null` / `undefined` / value distinction on option fields is made explicit
with small inductive types.
-/

namespace NodeCrawler

/-! ## Charset detection (options.ts `getCharset`, crawler.ts `_handler`) -/

/-- Character class of the regex fragment `[\w.-]`: ASCII word characters,
dot and hyphen. -/
def wordClass (c : Char) : Bool :=
  c.isAlphanum || c = '_' || c = '.' || c = '-'

/-- Case-insensitive prefix test: does the (already lowercase) pattern `ps`
start the character list `cs` when `cs` is compared lowercased? -/
def isPrefixCI : List Char → List Char → Bool
  | [], _ => true
  | _ :: _, [] => false
  | p :: ps, c :: cs => p = c.toLower && isPrefixCI ps cs

/-- Embedding of the regex search `/charset=['"]?([\w.-]+)/i` followed by
`.trim().toLowerCase()` as used in both `getCharset` and the body fallback of
`_handler`: scan left to right for a case-insensitive occurrence of
`charset=`, skip one optional quote, and capture a nonempty run of
`[\w.-]` characters, lowercased. -/
def charsetScan : List Char → Option String
  | [] => none
  | c :: cs =>
    if isPrefixCI "charset=".data (c :: cs) then
      let rest := (c :: cs).drop 8
      let rest2 := match rest with
        | q :: t => if q = '\'' || q = '"' then t else rest
        | [] => rest
      let run := rest2.takeWhile wordClass
      if run.isEmpty then charsetScan cs
      else some (String.mk (run.map Char.toLower))
    else charsetScan cs

/-- Response headers, as a lowercase-keyed association list (the crawler
lowercases header keys via `lowerObjectKeys`). -/
def Headers := List (String × String)

/-- Embedding of `getCharset` (options.ts): read the `content-type` header
and extract a declared charset from it, or `none` (JS `null`). -/
def getCharset (headers : Headers) : Option String :=
  match headers.lookup "content-type" with
  | some contentType => charsetScan contentType.data
  | none => none

/-- Embedding of `_handler` lines computing `response.charset`: the header
declaration if present, otherwise the regex fallback over the body text. -/
def responseCharset (headers : Headers) (body : String) : Option String :=
  match getCharset headers with
  | some c => some c
  | none => charsetScan body.data

/-- A JavaScript option field that distinguishes `null`, `undefined` and a
string value, as `options.encoding` does in `_handler`. -/
inductive Enc where
  | null : Enc
  | undef : Enc
  | str : String → Enc
deriving DecidableEq, Repr

/-- Embedding of the decode-step encoding choice in `_handler`:
`if (options.encoding !== null) options.encoding = options.encoding ??
response.charset ?? "utf8"`.  Returns `none` when no decode happens
(encoding explicitly `null`), otherwise the encoding handed to the decoder. -/
def effectiveEncoding (enc : Enc) (headers : Headers) (body : String) : Option String :=
  match enc with
  | .null => none
  | .str s => some s
  | .undef => some ((responseCharset headers body).getD "utf8")

/-! ## Markup detection and the success pipeline (crawler.ts `_handler`) -/

/-- Case-insensitive substring search, the embedding of `regex.test` for the
alternation-free patterns used by the crawler. -/
def containsCI (needle : List Char) : List Char → Bool
  | [] => needle.isEmpty
  | c :: cs => isPrefixCI needle (c :: cs) || containsCI needle cs

/-- Embedding of `_detectHtmlOnHeaders`: `/xml|html/i.test(contentType)` on
the `content-type` header; a missing header tests `false`. -/
def detectHtmlOnHeaders (headers : Headers) : Bool :=
  match headers.lookup "content-type" with
  | some contentType =>
    containsCI "xml".data contentType.data || containsCI "html".data contentType.data
  | none => false

/-- The option fields of a descriptor that drive the `_handler` success
pipeline. -/
structure HandlerOpts where
  encoding : Enc
  isJson : Bool
  jQuery : Bool
deriving DecidableEq, Repr

/-- The raw response reaching `_handler` on success: body text plus
headers. -/
structure RawResponse where
  body : String
  headers : Headers

/-- What the `_handler` success path did with a response: which encoding
the charset decoder received (`none` when decoding was skipped), whether a
structured-data (JSON) parse was attempted, and whether a document
(cheerio) parse was attempted. -/
structure PipelineResult where
  charset : Option String
  encodingUsed : Option String
  jsonAttempted : Bool
  documentAttempted : Bool
deriving DecidableEq, Repr

/-- Embedding of the `_handler` success path (no transport error): compute
`response.charset` from headers then body, pick the decode encoding, attempt
a JSON parse iff `isJson`, and attempt a cheerio `load` iff `jQuery === true`,
not JSON, nonempty body, and markup-indicating headers. -/
def handlerSuccess (o : HandlerOpts) (r : RawResponse) : PipelineResult :=
  let charset := responseCharset r.headers r.body
  { charset := charset
    encodingUsed := effectiveEncoding o.encoding r.headers r.body
    jsonAttempted := o.isJson
    documentAttempted :=
      o.jQuery && !o.isJson && !(r.body = "") && detectHtmlOnHeaders r.headers }

/-- Where `_schedule` routes a descriptor once its slot is granted: the
inline-body branch feeds a synthetic response straight to `_handler`
(the executor and the transport are never involved), every other
descriptor goes to `_execute`. -/
inductive DispatchTarget where
  | handled : PipelineResult → DispatchTarget
  | executor : DispatchTarget
deriving DecidableEq, Repr

/-- The synthetic response `_schedule` builds for an inline body:
`{ body: options.html, headers: { "content-type": "text/html" } }`. -/
def syntheticResponse (html : String) : RawResponse :=
  { body := html, headers := [("content-type", "text/html")] }

/-- Embedding of the branch in `_schedule`: `if (options.html)` handle the
synthetic response directly, else continue to `_execute`. -/
def scheduleDispatch (o : HandlerOpts) (html : Option String) : DispatchTarget :=
  match html with
  | some h => .handled (handlerSuccess o (syntheticResponse h))
  | none => .executor

/-! ## The execute/retry loop (crawler.ts `_execute` and `_handler`) -/

/-- Counters observed while one descriptor runs to completion through
`_execute` / `_handler`: how often the transport collaborator (got) was
invoked, how often `_handler` was entered with an error, how often the
completion callback received an error, and how often the release capability
fired. -/
structure RunTrace where
  transportCalls : Nat
  handlerErrorEntries : Nat
  errorCallbacks : Nat
  releases : Nat
deriving DecidableEq, Repr

/-- The two ways one `_execute` pass can end in an error: the pre-request
hook completes with an error (the transport is never called, `_handler`
receives the hook's error directly), or the transport call itself rejects. -/
inductive FailureMode where
  | transportError : FailureMode
  | hookError : FailureMode
deriving DecidableEq, Repr

/-- Embedding of the loop formed by `_execute` and the error branch of
`_handler` when every attempt fails with the given mode: a transport-error
attempt invokes got once, a hook-error attempt skips it; `_handler` then
either decrements `retries` (inside the retry timer) and re-enters
`_execute`, or — at zero retries — invokes the completion callback with the
error and, through it, the release capability. -/
def executeFailing (mode : FailureMode) : Nat → RunTrace → RunTrace
  | retries, t =>
    let t1 := match mode with
      | .transportError => { t with transportCalls := t.transportCalls + 1 }
      | .hookError => t
    let t2 := { t1 with handlerErrorEntries := t1.handlerErrorEntries + 1 }
    match retries with
    | 0 => { t2 with errorCallbacks := t2.errorCallbacks + 1, releases := t2.releases + 1 }
    | r + 1 => executeFailing mode r t2

/-- The trace of a fresh descriptor. -/
def RunTrace.zero : RunTrace := ⟨0, 0, 0, 0⟩

/-! ## The retry decision of `_handler` in isolation (claim about routing) -/

/-- Where a failed attempt is resubmitted. -/
inductive Route where
  | executorDirect : Route
  | clusterQueue : Route
  | finished : Route
deriving DecidableEq, Repr

/-- What the error branch of `_handler` decides for one failure. -/
structure RetryDecision where
  route : Route
  delayMs : Nat
  retriesAfter : Nat
  released : Bool
  callbackInvoked : Bool
deriving DecidableEq, Repr

/-- Embedding of the error branch of `_handler`: with retries left, start a
`setTimeout` for `retryInterval`, decrement the count and call `_execute`
directly (never `_limiters…submit`), keeping the slot (no release); with
none left, invoke the completion callback with the error and release. -/
def handlerOnError (retries retryInterval : Nat) : RetryDecision :=
  if retries > 0 then
    { route := .executorDirect, delayMs := retryInterval, retriesAfter := retries - 1
      released := false, callbackInvoked := false }
  else
    { route := .finished, delayMs := 0, retriesAfter := retries
      released := true, callbackInvoked := true }

/-! ## User-agent and proxy rotation (crawler.ts `_execute`) -/

/-- Embedding of one rotation step in `_execute`:
`idx = idx % list.length; pick list[idx]; idx++`.  Returns the picked entry
and the index left behind for the next dispatch. -/
def rotateStep (xs : List String) (i : Nat) : Option String × Nat :=
  let j := i % xs.length
  (xs.get? j, j + 1)

/-- The rotation index after `k` dispatches, starting from the constructor's
initial index `0`. -/
def rotateIndexAfter (xs : List String) : Nat → Nat
  | 0 => 0
  | k + 1 => (rotateStep xs (rotateIndexAfter xs k)).2

/-- The user-agent assigned on dispatch number `k` (0-based). -/
def assignedAgent (xs : List String) (k : Nat) : Option String :=
  (rotateStep xs (rotateIndexAfter xs k)).1

/-- Embedding of the proxy branch of `_execute`: a fixed `options.proxy`
wins and leaves the rotation index alone; otherwise the proxies list
rotates exactly like the user-agent list. -/
def chooseProxy (proxy : Option String) (proxies : List String) (i : Nat) :
    Option String × Nat :=
  match proxy with
  | some p => (some p, i)
  | none => rotateStep proxies i

/-! ## Constructor option merge (crawler.ts `constructor`) -/

/-- The global numeric options the constructor merges and hands to the
Cluster. -/
structure CrawlerGlobalOptions where
  maxConnections : Nat
  rateLimit : Nat
  priorityLevels : Nat
  priority : Nat
deriving DecidableEq, Repr

/-- The constructor's `defaultOptions` (the fields relevant here):
`maxConnections: 10, rateLimit: 0, priorityLevels: 10, priority: 5`. -/
def defaultGlobalOptions : CrawlerGlobalOptions :=
  { maxConnections := 10, rateLimit := 0, priorityLevels := 10, priority := 5 }

/-- Caller-supplied constructor options; `none` means the key is absent. -/
structure UserGlobalOptions where
  maxConnections : Option Nat
  rateLimit : Option Nat
  priorityLevels : Option Nat
  priority : Option Nat
deriving DecidableEq, Repr

/-- The spread merge `{ ...defaultOptions, ...options }`, fieldwise. -/
def mergeGlobalOptions (u : UserGlobalOptions) : CrawlerGlobalOptions :=
  { maxConnections := u.maxConnections.getD defaultGlobalOptions.maxConnections
    rateLimit := u.rateLimit.getD defaultGlobalOptions.rateLimit
    priorityLevels := u.priorityLevels.getD defaultGlobalOptions.priorityLevels
    priority := u.priority.getD defaultGlobalOptions.priority }

/-- Embedding of the constructor: merge, then
`if (this.options.rateLimit > 0) this.options.maxConnections = 1`. -/
def constructorOptions (u : UserGlobalOptions) : CrawlerGlobalOptions :=
  let o := mergeGlobalOptions u
  if o.rateLimit > 0 then { o with maxConnections := 1 } else o

/-- The configuration record passed to `new Cluster({...})`. -/
structure ClusterConfig where
  maxConnections : Nat
  rateLimit : Nat
  priorityLevels : Nat
  defaultPriority : Nat
deriving DecidableEq, Repr

/-- The Cluster construction argument built from the merged options. -/
def clusterConfig (u : UserGlobalOptions) : ClusterConfig :=
  let o := constructorOptions u
  { maxConnections := o.maxConnections, rateLimit := o.rateLimit
    priorityLevels := o.priorityLevels, defaultPriority := o.priority }

/-! ## Input validation (options.ts `getValidOptions`, crawler.ts `add`) -/

/-- Modelled from the spec: the runtime shape of one raw caller input as the
missing helper `getType` together with the prototype check classifies it — a
string, an object whose prototype is `Object.prototype` or `null`, an object
with any other prototype, or any other runtime type (number, boolean, array,
function, …).  `Obj` stands for the structured option objects themselves. -/
inductive RawInput (Obj : Type) where
  | str : String → RawInput Obj
  | plainObj : Obj → RawInput Obj
  | exoticObj : RawInput Obj
  | otherType : RawInput Obj
deriving DecidableEq, Repr

/-- The normalized descriptor `getValidOptions` returns: `{ url: s }` for a
valid URL string, the value `JSON.parse` produced, or the given plain
object unchanged. -/
inductive Normalized (Obj : Type) where
  | urlDescriptor : String → Normalized Obj
  | parsed : Obj → Normalized Obj
  | given : Obj → Normalized Obj
deriving DecidableEq, Repr

/-- Embedding of `getValidOptions`, parameterized by the missing helpers:
`isValidUrl` and `JSON.parse` (`none` = parse throws).  A string that is a
valid URL becomes `{ url }`; otherwise it must `JSON.parse`; a plain object
passes through; everything else raises `TypeError` (here `Except.error`). -/
def getValidOptions {Obj : Type} (isValidUrl : String → Bool)
    (jsonParse : String → Option Obj) :
    RawInput Obj → Except String (Normalized Obj)
  | .str s =>
    if isValidUrl s then .ok (.urlDescriptor s)
    else
      match jsonParse s with
      | some v => .ok (.parsed v)
      | none => .error ("Invalid options: " ++ s)
  | .plainObj o => .ok (.given o)
  | .exoticObj => .error "Invalid options"
  | .otherType => .error "Invalid options"

/-- The spec's three admitted shapes, written from its words: a plain URL
string, a serialized structured form parseable as JSON, or a plain
structured object. -/
def specAdmittedShape {Obj : Type} (isValidUrl : String → Bool)
    (jsonParse : String → Option Obj) : RawInput Obj → Bool
  | .str s => isValidUrl s || (jsonParse s).isSome
  | .plainObj _ => true
  | .exoticObj => false
  | .otherType => false

/-- Whether an `Except` computation succeeded (the JS function returned
instead of throwing). -/
def exceptOk {ε α : Type} : Except ε α → Bool
  | .ok _ => true
  | .error _ => false

/-- Observable outcome of `Crawler.add` processing one entry: whether
`_schedule` ran (the descriptor entered the Cluster), whether the
validation failure was logged (`log.warn`), whether a rejected dedup check
was logged (`log.error`), and whether any exception escaped to the caller
of `add`. -/
structure AddItemResult where
  scheduled : Bool
  warnLogged : Bool
  errorLogged : Bool
  thrown : Bool
deriving DecidableEq, Repr

/-- Embedding of the per-entry body of `Crawler.add`: a validation error is
caught and logged; with duplicate skipping off the descriptor is scheduled
directly; otherwise `seen.exists` decides — resolved `true` drops silently,
resolved `false` schedules, and a rejection reaches only the final
`.catch(error => log.error(error))`. -/
def addItem {Obj : Type} (isValidUrl : String → Bool)
    (jsonParse : String → Option Obj) (input : RawInput Obj)
    (skipDuplicates : Bool) (dedup : Except String Bool) : AddItemResult :=
  match getValidOptions isValidUrl jsonParse input with
  | .error _ => { scheduled := false, warnLogged := true, errorLogged := false, thrown := false }
  | .ok _ =>
    if !skipDuplicates then
      { scheduled := true, warnLogged := false, errorLogged := false, thrown := false }
    else
      match dedup with
      | .ok true => { scheduled := false, warnLogged := false, errorLogged := false, thrown := false }
      | .ok false => { scheduled := true, warnLogged := false, errorLogged := false, thrown := false }
      | .error _ => { scheduled := false, warnLogged := false, errorLogged := true, thrown := false }

/-! ## The `send` entry point (crawler.ts `send`) -/

/-- The request fields relevant to `send`'s preparation; `none` means the
field is absent/undefined on the call. -/
structure SendInput where
  retries : Option Nat
  skipEventRequest : Option Bool
  hasPreRequest : Bool
deriving DecidableEq, Repr

/-- The crawler-level option values `setDefaults` could copy onto the
request (the crawler's own defaults give `retries = 2`). -/
structure SendDefaults where
  retries : Nat
  skipEventRequest : Option Bool
  hasPreRequest : Bool
deriving DecidableEq, Repr

/-- The options with which `send` finally enters `_execute`. -/
structure PreparedSend where
  retries : Nat
  skipEventRequest : Bool
  hasPreRequest : Bool
deriving DecidableEq, Repr

/-- Embedding of `send`'s preparation: `retries = retries ?? 0` runs before
`setDefaults`, so the crawler's `retries` default never applies;
`setDefaults` fills the still-undefined fields from the crawler options;
`skipEventRequest` is coerced to `true` unless it is already a boolean; and
`delete options.preRequest` removes any hook, own or inherited. -/
def sendPrepared (o : SendInput) (g : SendDefaults) : PreparedSend :=
  let retries := o.retries.getD 0
  let sker : Option Bool :=
    match o.skipEventRequest with
    | some b => some b
    | none => g.skipEventRequest
  { retries := retries
    skipEventRequest := sker.getD true
    hasPreRequest := false }

/-- Modelled from the spec: the visible state of a Cluster limiter — the
pending queue length and the active-slot count (the rateLimiter sources are
outside the excerpt). -/
structure ClusterState where
  queued : Nat
  active : Nat
deriving DecidableEq, Repr

/-- Modelled from the spec: `RateLimiter.submit` enqueues one pending
(priority, task) pair. -/
def submitEffect (s : ClusterState) : ClusterState :=
  { s with queued := s.queued + 1 }

/-- The operations of a crawler entry point that are visible from outside. -/
inductive CrawlerOp where
  | limiterSubmit
  | emitRequest
  | transport
deriving DecidableEq, Repr

/-- Effect of one operation on the limiter state: only a submission touches
it. -/
def opEffect : CrawlerOp → ClusterState → ClusterState
  | .limiterSubmit, s => submitEffect s
  | .emitRequest, s => s
  | .transport, s => s

/-- Run a list of operations over the limiter state. -/
def runOps : List CrawlerOp → ClusterState → ClusterState
  | [], s => s
  | op :: ops, s => runOps ops (opEffect op s)

/-- Embedding of what `send` does after validation: prepare the options and
call `_execute` directly — `send` never references `_limiters` — where the
"request" notification fires only when `skipEventRequest !== true`, followed
by the transport call. -/
def sendOps (o : SendInput) (g : SendDefaults) : List CrawlerOp :=
  let p := sendPrepared o g
  (if p.skipEventRequest then [] else [.emitRequest]) ++ [.transport]

/-! ## Helper lemmas -/

/-- Closed form of the always-failing loop when the transport is the failing
step: each of the `r + 1` attempts calls the transport once and enters the
handler's error branch once; the callback and the release fire once at the
end. -/
theorem executeFailing_transportError (r : Nat) (t : RunTrace) :
    executeFailing .transportError r t =
      ⟨t.transportCalls + (r + 1), t.handlerErrorEntries + (r + 1),
        t.errorCallbacks + 1, t.releases + 1⟩ := by
  induction r generalizing t with
  | zero => simp [executeFailing]
  | succ n ih =>
    have step : executeFailing FailureMode.transportError (n + 1) t =
        executeFailing FailureMode.transportError n
          { t with transportCalls := t.transportCalls + 1
                   handlerErrorEntries := t.handlerErrorEntries + 1 } := rfl
    rw [step, ih]
    simp only [RunTrace.mk.injEq, and_true, true_and]
    omega

/-- Closed form of the always-failing loop when the pre-request hook is the
failing step: the transport is never called; the handler's error branch
still runs once per attempt, and the callback and release fire once. -/
theorem executeFailing_hookError (r : Nat) (t : RunTrace) :
    executeFailing .hookError r t =
      ⟨t.transportCalls, t.handlerErrorEntries + (r + 1),
        t.errorCallbacks + 1, t.releases + 1⟩ := by
  induction r generalizing t with
  | zero => simp [executeFailing]
  | succ n ih =>
    have step : executeFailing FailureMode.hookError (n + 1) t =
        executeFailing FailureMode.hookError n
          { t with handlerErrorEntries := t.handlerErrorEntries + 1 } := rfl
    rw [step, ih]
    simp only [RunTrace.mk.injEq, and_true, true_and]
    omega

/-- The persistent rotation index stays congruent to the dispatch count. -/
theorem rotateIndexAfter_mod (xs : List String) (k : Nat) :
    rotateIndexAfter xs k % xs.length = k % xs.length := by
  induction k with
  | zero => rfl
  | succ n ih =>
    have step : rotateIndexAfter xs (n + 1) =
        rotateIndexAfter xs n % xs.length + 1 := rfl
    rw [step, ih, Nat.mod_add_mod]

/-! ## Claim theorems -/

/-- Claim C1: a descriptor configured with `retries = 2` whose transport
attempt always fails runs the transport step exactly 3 times, decrementing
the remaining-retry count by one per failed attempt (each recursion step
consumes one retry), and after the final failure the completion callback is
invoked with the error exactly once and the release capability fires exactly
once. -/
theorem retries_two_always_fail_three_attempts :
    executeFailing .transportError 2 RunTrace.zero =
      ⟨3, 3, 1, 1⟩ ∧
    (∀ r, executeFailing .transportError r RunTrace.zero =
      ⟨r + 1, r + 1, 1, 1⟩) ∧
    (∀ r t, executeFailing .transportError (r + 1) t =
      executeFailing .transportError r
        { t with transportCalls := t.transportCalls + 1
                 handlerErrorEntries := t.handlerErrorEntries + 1 }) := by
  refine ⟨by decide, fun r => ?_, fun r t => rfl⟩
  rw [executeFailing_transportError]
  simp [RunTrace.zero]

/-- Claim C4: on a transport error with remaining retries > 0, `_handler`
schedules a timer for the configured retry interval and resubmits directly
to the executor — not through the Cluster queue — with the retry count
decremented by one, the slot kept (no release) and the completion callback
not yet invoked. -/
theorem retry_resubmits_directly_to_executor (retries retryInterval : Nat)
    (h : 0 < retries) :
    handlerOnError retries retryInterval =
      { route := .executorDirect, delayMs := retryInterval
        retriesAfter := retries - 1, released := false, callbackInvoked := false } ∧
    (handlerOnError retries retryInterval).route ≠ Route.clusterQueue := by
  rw [handlerOnError, if_pos h]
  exact ⟨rfl, by simp⟩

/-- Witness for C4 at the crawler's default configuration
(retries 2, retry interval 3000 ms). -/
theorem retry_resubmits_directly_to_executor_witness :
    handlerOnError 2 3000 =
      { route := .executorDirect, delayMs := 3000
        retriesAfter := 1, released := false, callbackInvoked := false } ∧
    (handlerOnError 2 3000).route ≠ Route.clusterQueue :=
  retry_resubmits_directly_to_executor 2 3000 (by decide)

/-- Claim C8: with a user-agent list of length N > 0, the dispatch numbered
`k` (0-based) assigns entry `k % N` and leaves the rotation index advanced
by exactly one past the clamped index — a deterministic round-robin; the
proxies list follows the identical rotation step when no fixed proxy is
set, while a fixed proxy wins and leaves the index alone. -/
theorem user_agent_round_robin (xs : List String) (k : Nat)
    (_hx : 0 < xs.length) :
    assignedAgent xs k = xs.get? (k % xs.length) ∧
    (rotateStep xs (rotateIndexAfter xs k)).2 = k % xs.length + 1 ∧
    (∀ proxies i, chooseProxy none proxies i = rotateStep proxies i) ∧
    (∀ p proxies i, chooseProxy (some p) proxies i = (some p, i)) := by
  refine ⟨?_, ?_, fun proxies i => rfl, fun p proxies i => rfl⟩
  · unfold assignedAgent rotateStep
    rw [rotateIndexAfter_mod]
  · unfold rotateStep
    rw [rotateIndexAfter_mod]

/-- Witness for C8: on the list ["a", "b", "c"], dispatch number 4 picks
entry 4 % 3 = 1, i.e. "b", and leaves index 2. -/
theorem user_agent_round_robin_witness :
    assignedAgent ["a", "b", "c"] 4 = some "b" ∧
    (rotateStep ["a", "b", "c"] (rotateIndexAfter ["a", "b", "c"] 4)).2 = 2 := by
  have h := user_agent_round_robin ["a", "b", "c"] 4 (by decide)
  exact ⟨by rw [h.1]; decide, by rw [h.2.1]; decide⟩

/-- Claim C9: when the pre-request hook completes with an error, the
transport collaborator is never invoked in that run, and the error is
handled by exactly the failure path used for transport errors (the traces
coincide except that no transport calls accrue), terminating with one error
callback and one release. -/
theorem hook_error_skips_transport :
    (∀ r, executeFailing .hookError r RunTrace.zero =
      ⟨0, r + 1, 1, 1⟩) ∧
    (∀ r t, executeFailing .hookError r t =
      { executeFailing .transportError r t with transportCalls := t.transportCalls }) := by
  constructor
  · intro r
    rw [executeFailing_hookError]
    simp [RunTrace.zero]
  · intro r t
    rw [executeFailing_hookError, executeFailing_transportError]

/-- Claim C2: validation succeeds exactly on the three admitted shapes —
a valid URL string, a JSON-parseable string, a plain-prototype object —
failing synchronously (the `Except.error`, the thrown `TypeError`) on
everything else; and an input failing validation is never scheduled by
`add` (and nothing escapes `add` to its caller). -/
theorem validation_admits_exactly_three_shapes {Obj : Type}
    (isValidUrl : String → Bool) (jsonParse : String → Option Obj)
    (x : RawInput Obj) :
    exceptOk (getValidOptions isValidUrl jsonParse x) =
      specAdmittedShape isValidUrl jsonParse x ∧
    (specAdmittedShape isValidUrl jsonParse x = false →
      ∀ skipDuplicates dedup,
        (addItem isValidUrl jsonParse x skipDuplicates dedup).scheduled = false ∧
        (addItem isValidUrl jsonParse x skipDuplicates dedup).thrown = false) := by
  have hmain : exceptOk (getValidOptions isValidUrl jsonParse x) =
      specAdmittedShape isValidUrl jsonParse x := by
    cases x with
    | str s =>
      by_cases hu : isValidUrl s
      · simp [getValidOptions, specAdmittedShape, exceptOk, hu]
      · cases hj : jsonParse s <;>
          simp [getValidOptions, specAdmittedShape, exceptOk, hu, hj]
    | plainObj o => rfl
    | exoticObj => rfl
    | otherType => rfl
  refine ⟨hmain, fun hfail skipDuplicates dedup => ?_⟩
  have herr : exceptOk (getValidOptions isValidUrl jsonParse x) = false := by
    rw [hmain, hfail]
  unfold addItem
  cases hv : getValidOptions isValidUrl jsonParse x with
  | ok v => rw [hv] at herr; simp [exceptOk] at herr
  | error e => exact ⟨rfl, rfl⟩

/-- Witness for C2: a number-like input (neither string nor object) fails
validation and is dropped by `add` without being scheduled or rethrown. -/
theorem validation_admits_exactly_three_shapes_witness :
    exceptOk (getValidOptions (fun _ => false) (fun _ => none)
        (RawInput.otherType : RawInput Unit)) = false ∧
    (addItem (fun _ => false) (fun _ => none) (RawInput.otherType : RawInput Unit)
        false (.ok false)).scheduled = false ∧
    (addItem (fun _ => false) (fun _ => none) (RawInput.otherType : RawInput Unit)
        false (.ok false)).thrown = false := by
  have h := validation_admits_exactly_three_shapes
    (fun _ => false) (fun _ => none) (RawInput.otherType : RawInput Unit)
  have h2 := h.2 (by rfl) false (.ok false)
  exact ⟨by rw [h.1]; rfl, h2.1, h2.2⟩

/-- Counterexample to claim C3 as stated: with duplicate-skipping enabled
and a rejecting dedup check, the descriptor is NOT admitted to the
scheduler — the rejection reaches only `.catch(error => log.error(error))`,
which never calls `_schedule`. -/
theorem dedup_failure_not_admitted_cex :
    ¬ ((addItem (fun _ => true) (fun _ => none)
        (RawInput.plainObj ()) true (.error "dedup backend down")).scheduled = true) := by
  decide

/-- Claim C3 (amended): with duplicate-skipping enabled, a "seen" result
drops the descriptor silently; a failing existence check is logged and
never thrown, but the descriptor is dropped (fail-closed), not admitted;
an "unseen" result schedules it. -/
theorem dedup_failure_drops_descriptor {Obj : Type}
    (isValidUrl : String → Bool) (jsonParse : String → Option Obj)
    (x : RawInput Obj)
    (hvalid : exceptOk (getValidOptions isValidUrl jsonParse x) = true) :
    (∀ e, addItem isValidUrl jsonParse x true (.error e) =
      { scheduled := false, warnLogged := false, errorLogged := true, thrown := false }) ∧
    addItem isValidUrl jsonParse x true (.ok true) =
      { scheduled := false, warnLogged := false, errorLogged := false, thrown := false } ∧
    addItem isValidUrl jsonParse x true (.ok false) =
      { scheduled := true, warnLogged := false, errorLogged := false, thrown := false } := by
  unfold addItem
  cases hv : getValidOptions isValidUrl jsonParse x with
  | ok v => exact ⟨fun e => rfl, rfl, rfl⟩
  | error e => rw [hv] at hvalid; simp [exceptOk] at hvalid

/-- Witness for the amended C3 on a concrete plain-object descriptor. -/
theorem dedup_failure_drops_descriptor_witness :
    addItem (fun _ => true) (fun _ => none) (RawInput.plainObj ())
      true (.error "dedup backend down") =
      { scheduled := false, warnLogged := false, errorLogged := true, thrown := false } ∧
    addItem (fun _ => true) (fun _ => none) (RawInput.plainObj ())
      true (.ok true) =
      { scheduled := false, warnLogged := false, errorLogged := false, thrown := false } := by
  have h := dedup_failure_drops_descriptor
    (fun _ => true) (fun _ => none) (RawInput.plainObj ()) (by rfl)
  exact ⟨h.1 "dedup backend down", h.2.1⟩

/-- Claim C5: the decode charset follows the priority caller-forced
encoding, else content-type header declaration, else body-embedded
declaration, else "utf8"; in particular a response with no content-type
header whose body declares iso-8859-1 decodes as iso-8859-1, not the
default. -/
theorem charset_priority_order :
    (∀ s headers body, effectiveEncoding (.str s) headers body = some s) ∧
    (∀ headers body c, getCharset headers = some c →
      effectiveEncoding .undef headers body = some c) ∧
    (∀ headers body c, getCharset headers = none →
      charsetScan body.data = some c →
      effectiveEncoding .undef headers body = some c) ∧
    (∀ headers body, getCharset headers = none →
      charsetScan body.data = none →
      effectiveEncoding .undef headers body = some "utf8") ∧
    (effectiveEncoding .undef []
        "<html><head><meta charset=\"iso-8859-1\"></head></html>" =
      some "iso-8859-1") := by
  refine ⟨fun s headers body => rfl, ?_, ?_, ?_, by decide⟩
  · intro headers body c hc
    simp [effectiveEncoding, responseCharset, hc]
  · intro headers body c hh hb
    simp [effectiveEncoding, responseCharset, hh, hb]
  · intro headers body hh hb
    simp [effectiveEncoding, responseCharset, hh, hb]

/-- Witness for C5 at concrete headers and bodies for each priority rung. -/
theorem charset_priority_order_witness :
    effectiveEncoding (.str "utf8") [("content-type", "text/html; charset=gbk")]
      "" = some "utf8" ∧
    effectiveEncoding .undef [("content-type", "text/html; charset=gbk")]
      "<meta charset=\"iso-8859-1\">" = some "gbk" ∧
    effectiveEncoding .undef []
      "<html><head><meta charset=\"iso-8859-1\"></head></html>" = some "iso-8859-1" ∧
    effectiveEncoding .undef [] "plain text" = some "utf8" := by
  have h := charset_priority_order
  exact ⟨h.1 "utf8" _ _,
    h.2.1 _ "<meta charset=\"iso-8859-1\">" "gbk" (by decide),
    h.2.2.2.2,
    h.2.2.2.1 _ "plain text" (by decide) (by decide)⟩

/-- Claim C6: a nonzero configured `rateLimit` forces the effective
`maxConnections` to 1 regardless of any larger configured value, and that
forced value is what the Cluster receives at construction. -/
theorem rate_limit_forces_concurrency_one (u : UserGlobalOptions) (r : Nat)
    (hset : u.rateLimit = some r) (hpos : 0 < r) :
    (constructorOptions u).maxConnections = 1 ∧
    (clusterConfig u).maxConnections = 1 := by
  have h : (constructorOptions u).maxConnections = 1 := by
    simp [constructorOptions, mergeGlobalOptions, hset, hpos]
  exact ⟨h, h⟩

/-- Witness for C6: maxConnections 50 with rateLimit 1000 still yields a
Cluster built with maxConnections 1. -/
theorem rate_limit_forces_concurrency_one_witness :
    (constructorOptions ⟨some 50, some 1000, none, none⟩).maxConnections = 1 ∧
    (clusterConfig ⟨some 50, some 1000, none, none⟩).maxConnections = 1 :=
  rate_limit_forces_concurrency_one ⟨some 50, some 1000, none, none⟩ 1000
    rfl (by decide)

/-- Claim C7: a descriptor with an inline body is dispatched straight to
the response handler — never to the executor — and the outcome is the very
same success pipeline (`handlerSuccess`) a fetched response goes through,
applied to a synthetic response whose content type `text/html` passes the
markup detector, so the document parse is attempted under the default
options. -/
theorem inline_html_bypasses_executor (o : HandlerOpts) (h : String)
    (hj : o.jQuery = true) (hnj : o.isJson = false) (hne : h ≠ "") :
    scheduleDispatch o (some h) = .handled (handlerSuccess o (syntheticResponse h)) ∧
    scheduleDispatch o (some h) ≠ DispatchTarget.executor ∧
    detectHtmlOnHeaders (syntheticResponse h).headers = true ∧
    (handlerSuccess o (syntheticResponse h)).documentAttempted = true := by
  refine ⟨rfl, by simp [scheduleDispatch],
    show detectHtmlOnHeaders [("content-type", "text/html")] = true by decide, ?_⟩
  simp [handlerSuccess, syntheticResponse, hj, hnj, hne]
  decide

/-- Witness for C7 at default options and a nonempty inline body. -/
theorem inline_html_bypasses_executor_witness :
    scheduleDispatch ⟨.undef, false, true⟩ (some "<p>hi</p>") =
      .handled (handlerSuccess ⟨.undef, false, true⟩ (syntheticResponse "<p>hi</p>")) ∧
    scheduleDispatch ⟨.undef, false, true⟩ (some "<p>hi</p>") ≠
      DispatchTarget.executor ∧
    (handlerSuccess ⟨.undef, false, true⟩ (syntheticResponse "<p>hi</p>")).documentAttempted
      = true := by
  have h := inline_html_bypasses_executor ⟨.undef, false, true⟩ "<p>hi</p>"
    rfl rfl (by decide)
  exact ⟨h.1, h.2.1, h.2.2.2⟩

/-- Claim C10: `send` runs the request without any limiter submission — the
Cluster's limiter state is left unchanged — while the transport does run;
the pre-request hook is deleted before execution, `retries` defaults to 0
when unspecified (the crawler-level default never applies), and the
"request" notification is suppressed unless `skipEventRequest` was
explicitly set to `false`. -/
theorem send_skips_limiter (o : SendInput) (g : SendDefaults) :
    (∀ s, runOps (sendOps o g) s = s) ∧
    CrawlerOp.limiterSubmit ∉ sendOps o g ∧
    CrawlerOp.transport ∈ sendOps o g ∧
    (sendPrepared o g).hasPreRequest = false ∧
    (o.retries = none → (sendPrepared o g).retries = 0) ∧
    (∀ n, o.retries = some n → (sendPrepared o g).retries = n) ∧
    (CrawlerOp.emitRequest ∈ sendOps o g ↔
      o.skipEventRequest = some false ∨
        (o.skipEventRequest = none ∧ g.skipEventRequest = some false)) := by
  unfold sendOps sendPrepared
  cases ho : o.skipEventRequest with
  | some b =>
    cases b <;>
      simp [runOps, opEffect, Option.getD] <;>
      refine ⟨fun h => by rw [h], fun n h => by rw [h]⟩
  | none =>
    cases hg : g.skipEventRequest with
    | some b =>
      cases b <;>
        simp [runOps, opEffect, Option.getD] <;>
        refine ⟨fun h => by rw [h], fun n h => by rw [h]⟩
    | none =>
      simp [runOps, opEffect, Option.getD]
      refine ⟨fun h => by rw [h], fun n h => by rw [h]⟩

/-- Witness for C10 at a bare send call (no retries, no skipEventRequest,
a configured global hook) against the crawler defaults (retries 2). -/
theorem send_skips_limiter_witness :
    runOps (sendOps ⟨none, none, false⟩ ⟨2, none, true⟩) ⟨0, 0⟩ = ⟨0, 0⟩ ∧
    CrawlerOp.limiterSubmit ∉ sendOps ⟨none, none, false⟩ ⟨2, none, true⟩ ∧
    (sendPrepared ⟨none, none, false⟩ ⟨2, none, true⟩).hasPreRequest = false ∧
    (sendPrepared ⟨none, none, false⟩ ⟨2, none, true⟩).retries = 0 := by
  have h := send_skips_limiter ⟨none, none, false⟩ ⟨2, none, true⟩
  exact ⟨h.1 ⟨0, 0⟩, h.2.1, h.2.2.2.1, h.2.2.2.2.1 rfl⟩

end NodeCrawler
